import Mathlib

/-!
Shallow embedding of the `ToVoteOrNotToVote` repository in Lean 4,
verifying the natural-language specification against the source code.

Numeric values of the Python code are modelled as rationals (`ℚ`); the
transcendental `np.exp` is abstracted as an explicit function argument
`e : ℚ → ℚ`, since no verified claim depends on values of the
exponential itself.  Random draws are abstracted as explicit oracle
arguments.  Fallible code returns `Option`/`Except`.
-/

namespace DDM

/-- `np.clip(x, lo, hi)` = `minimum(hi, maximum(lo, x))`. -/
def npClip (x lo hi : ℚ) : ℚ := min hi (max lo x)

/-- `DDMParameters` dataclass from `ddm_model.py`: flat coefficient
bundle with its literal defaults. -/
structure DDMParameters where
  beta_D : ℚ := 15/100
  beta_PI : ℚ := 12/100
  beta_IS : ℚ := 10/100
  beta_S : ℚ := 20/100
  beta_H : ℚ := 18/100
  beta_C : ℚ := -14/100
  beta_EC : ℚ := 8/100
  beta_OC : ℚ := 5/100
  drift_rate_base : ℚ := 1/10
  threshold_base : ℚ := 2
  sigma_base : ℚ := 2/10
  gamma_risk : ℚ := 4/10
  gamma_edu : ℚ := 3/10
  gamma_OC : ℚ := 2/10
  alpha_H : ℚ := 25/100
  alpha_PI : ℚ := 10/100
  alpha_D : ℚ := 10/100
  nu_edu : ℚ := 3/10
  nu_OC : ℚ := 15/100
deriving DecidableEq

/-- The eight required features of a voter record (presence of all eight
is enforced by `_validate_features`; out-of-range values only warn), plus
the two optional features read with `dict.get(…, 0.5)`. -/
structure Features where
  civic_duty : ℚ
  habit_strength : ℚ
  social_pressure_sensitivity : ℚ
  risk_aversion : ℚ
  education_normalized : ℚ
  overconfidence : ℚ
  voting_cost_total : ℚ
  electoral_competitiveness : ℚ
  partisan_identity_strength : Option ℚ := none
  issue_salience : Option ℚ := none
deriving DecidableEq

/-- `f.get('partisan_identity_strength', 0.5)`. -/
def Features.partisanOrDefault (f : Features) : ℚ :=
  f.partisan_identity_strength.getD (1/2)

/-- `f.get('issue_salience', 0.5)`. -/
def Features.salienceOrDefault (f : Features) : ℚ :=
  f.issue_salience.getD (1/2)

/-- `DDMVoter._compute_drift_rate`. -/
def computeDriftRate (p : DDMParameters) (f : Features) : ℚ :=
  p.drift_rate_base +
  p.beta_D * f.civic_duty +
  p.beta_PI * f.partisanOrDefault +
  p.beta_IS * f.salienceOrDefault +
  p.beta_S * f.social_pressure_sensitivity +
  p.beta_H * f.habit_strength +
  p.beta_C * f.voting_cost_total +
  p.beta_EC * f.electoral_competitiveness +
  p.beta_OC * f.overconfidence

/-- The raw threshold value of `DDMVoter._compute_threshold`, before the
`max(a, 0.5)` floor. -/
def rawThreshold (p : DDMParameters) (f : Features) : ℚ :=
  p.threshold_base *
    ((1 + p.gamma_risk * f.risk_aversion) *
     (1 - p.gamma_edu * f.education_normalized) /
     (1 + p.gamma_OC * f.overconfidence))

/-- `DDMVoter._compute_threshold`: raw formula floored at 0.5. -/
def computeThreshold (p : DDMParameters) (f : Features) : ℚ :=
  max (rawThreshold p f) (1/2)

/-- The starting-point proportion of `DDMVoter._compute_starting_point`,
before the `np.clip(…, 0.1, 0.9)`. -/
def rawStartProportion (p : DDMParameters) (f : Features) : ℚ :=
  1/2 + p.alpha_H * f.habit_strength +
    p.alpha_PI * (f.partisanOrDefault - 1/2) +
    p.alpha_D * (f.civic_duty - 1/2)

/-- `DDMVoter._compute_starting_point`: clipped proportion times the
(already floored) threshold `a`. -/
def computeStartingPoint (p : DDMParameters) (f : Features) (a : ℚ) : ℚ :=
  a * npClip (rawStartProportion p f) (1/10) (9/10)

/-- The raw diffusion value of `DDMVoter._compute_diffusion_coefficient`,
before the `max(sigma, 0.05)` floor. -/
def rawDiffusion (p : DDMParameters) (f : Features) : ℚ :=
  p.sigma_base *
    ((1 + p.nu_edu * (1 - f.education_normalized)) *
     (1 - p.nu_OC * f.overconfidence))

/-- `DDMVoter._compute_diffusion_coefficient`: raw formula floored at 0.05. -/
def computeDiffusion (p : DDMParameters) (f : Features) : ℚ :=
  max (rawDiffusion p f) (1/20)

/-- The mutable per-voter state of a `DDMVoter`: the four derived scalars
μ, a, z, σ (mutated in place by nudges), together with the immutable
features and parameter bundle. -/
structure VoterState where
  mu : ℚ
  a : ℚ
  z : ℚ
  sigma : ℚ
  features : Features
  params : DDMParameters
deriving DecidableEq

/-- `DDMVoter.__init__`: derive μ, a, z, σ from the features (in the
source order: μ, then a, then z = a·proportion, then σ). -/
def mkVoter (p : DDMParameters) (f : Features) : VoterState :=
  let a := computeThreshold p f
  { mu := computeDriftRate p f
    a := a
    z := computeStartingPoint p f a
    sigma := computeDiffusion p f
    features := f
    params := p }

/-- `DDMVoter.compute_analytical_probability`, with `np.exp` abstracted
as `e`.  Mirrors the source: no-drift short-circuit, then the exp ratio
with the small-denominator guard, then `np.clip(p_vote, 0, 1)`. -/
def computeAnalyticalProbability (e : ℚ → ℚ) (v : VoterState) : ℚ :=
  if |v.mu| < 1/1000000 then
    v.z / v.a
  else
    let numerator := 1 - e (-2 * v.mu * v.z / v.sigma ^ 2)
    let denominator := 1 - e (-2 * v.mu * v.a / v.sigma ^ 2)
    if |denominator| < 1/10000000000 then
      (if v.mu > 0 then 1 else 0)
    else
      npClip (numerator / denominator) 0 1

/-- Modelled from the wording of the specification (§4.2, "Analytical
vote probability"): `z/a` when `|μ| < 1e-6`; otherwise the exp ratio
clamped to `[0,1]`, except that a denominator of magnitude below
`1e-10` short-circuits to 1.0 for positive drift and 0.0 otherwise.
"Clamped to [0,1]" is written here as `max 0 (min 1 ·)`. -/
def specAnalyticalProbability (e : ℚ → ℚ) (mu a z sigma : ℚ) : ℚ :=
  if |mu| < 1/1000000 then
    z / a
  else if |1 - e (-2 * mu * a / sigma ^ 2)| < 1/10000000000 then
    (if mu > 0 then 1 else 0)
  else
    max 0 (min 1 ((1 - e (-2 * mu * z / sigma ^ 2)) /
                  (1 - e (-2 * mu * a / sigma ^ 2))))

end DDM

namespace DDM

theorem npClip_comm01 (x : ℚ) : npClip x 0 1 = max 0 (min 1 x) := by
  unfold npClip
  rcases le_total x 0 with h | h
  · rw [max_eq_left h, min_eq_right (h.trans zero_le_one), max_eq_left h]
    exact min_eq_right zero_le_one
  · rw [max_eq_right h, max_eq_right (le_min zero_le_one h)]

end DDM

/-- **C1**: for every constructed `DDMVoter` (any parameters and features,
and any exponential function `e`), `compute_analytical_probability`
returns `z/a` when `|μ| < 1e-6`, and otherwise the ratio
`[1 − e(−2μz/σ²)] / [1 − e(−2μa/σ²)]` clamped to `[0,1]`, except that a
denominator of magnitude below `1e-10` yields exactly 1.0 when `μ > 0`
and 0.0 otherwise. -/
theorem C1_analytical_probability (e : ℚ → ℚ) (p : DDM.DDMParameters)
    (f : DDM.Features) :
    DDM.computeAnalyticalProbability e (DDM.mkVoter p f) =
      DDM.specAnalyticalProbability e (DDM.mkVoter p f).mu
        (DDM.mkVoter p f).a (DDM.mkVoter p f).z (DDM.mkVoter p f).sigma := by
  unfold DDM.computeAnalyticalProbability DDM.specAnalyticalProbability
  split_ifs <;> simp_all [DDM.npClip_comm01]

namespace DDM

theorem npClip_le_hi (x lo hi : ℚ) : npClip x lo hi ≤ hi := min_le_left _ _

theorem lo_le_npClip (x lo hi : ℚ) (h : lo ≤ hi) : lo ≤ npClip x lo hi :=
  le_min h (le_max_left _ _)

/-- Per-nudge parameter payloads of `DDMVoter.apply_nudge`, with the
literal `dict.get` defaults from the source. -/
inductive Nudge where
  | monetary (lottery_value : ℚ := 3/10) (lottery_prob : ℚ := 1/100)
  | social_norm (revealed_turnout : ℚ := 75/100) (prior_belief : ℚ := 1/2)
  | identity (identity_strength : ℚ := 7/10) (frame_strength : ℚ := 1)
  | disclosure (threat_level : ℚ := 3/2)
  | implementation (plan_quality : ℚ := 7/10)
  | competitiveness (competitiveness_info : ℚ := 8/10)
deriving DecidableEq

/-- `DDMVoter.apply_nudge`: mutates μ/σ/a/z in place (modelled as a state
transformer).  The Python method additionally returns
`compute_analytical_probability()` of the new state; that return value is
derived and does not feed back into the state. -/
def applyNudge (v : VoterState) : Nudge → VoterState
  | .monetary lottery_value lottery_prob =>
      let lottery_boost :=
        lottery_value * lottery_prob * (1 / (1 + v.features.civic_duty))
      { v with mu := v.mu + lottery_boost }
  | .social_norm revealed prior =>
      let social_boost := v.params.beta_S * (1/2) * (revealed - prior)
      { v with mu := v.mu + social_boost, sigma := v.sigma * (85/100) }
  | .identity identity_strength frame_strength =>
      let identity_shift := (15/100) * identity_strength * frame_strength
      { v with z := npClip (v.z + identity_shift * v.a)
                            ((5/100) * v.a) ((95/100) * v.a) }
  | .disclosure threat_level =>
      let disclosure_boost :=
        v.params.beta_S * v.features.social_pressure_sensitivity * threat_level
      { v with mu := v.mu + disclosure_boost }
  | .implementation plan_quality =>
      let a' := v.a * (1 - (15/100) * plan_quality)
      let z' := v.z + (1/10) * plan_quality * a'
      { v with a := a', z := npClip z' ((5/100) * a') ((95/100) * a') }
  | .competitiveness comp_info =>
      let efficacy := (4/10) * v.features.education_normalized +
                      (3/10) * v.features.overconfidence +
                      (3/10) * v.features.partisanOrDefault
      let comp_boost := v.params.beta_EC * comp_info * efficacy
      { v with mu := v.mu + comp_boost, sigma := v.sigma * (85/100) }

/-- A feature record (out-of-range values only warn in the source) whose
raw threshold (0.125) and raw diffusion (0.044) both fall below their
construction floors. -/
def floorFeatures : Features :=
  { civic_duty := 0, habit_strength := 0, social_pressure_sensitivity := 0
    risk_aversion := 0, education_normalized := 3, overconfidence := 3
    voting_cost_total := 0, electoral_competitiveness := 0 }

/-- A feature record whose raw threshold (0.2) is below the 0.5 floor and
whose diffusion lands at exactly 0.08 (above the floor). -/
def nearFloorFeatures : Features :=
  { civic_duty := 0, habit_strength := 0, social_pressure_sensitivity := 0
    risk_aversion := 0, education_normalized := 3, overconfidence := 0
    voting_cost_total := 0, electoral_competitiveness := 0 }

end DDM

/-- **C3**: every constructed voter satisfies `a ≥ 0.5`, `σ ≥ 0.05`, and
`z = a·p` with the starting-point proportion clamped to `[0.1, 0.9]`,
hence `z ∈ [0.1a, 0.9a]`; a raw threshold below 0.5 realizes exactly 0.5,
and a raw diffusion below 0.05 realizes exactly 0.05. -/
theorem C3_construction_invariants (p : DDM.DDMParameters) (f : DDM.Features) :
    1/2 ≤ (DDM.mkVoter p f).a ∧
    1/20 ≤ (DDM.mkVoter p f).sigma ∧
    (DDM.mkVoter p f).z =
      (DDM.mkVoter p f).a *
        DDM.npClip (DDM.rawStartProportion p f) (1/10) (9/10) ∧
    (1/10) * (DDM.mkVoter p f).a ≤ (DDM.mkVoter p f).z ∧
    (DDM.mkVoter p f).z ≤ (9/10) * (DDM.mkVoter p f).a ∧
    (DDM.rawThreshold p f < 1/2 → (DDM.mkVoter p f).a = 1/2) ∧
    (DDM.rawDiffusion p f < 1/20 → (DDM.mkVoter p f).sigma = 1/20) := by
  have ha : (DDM.mkVoter p f).a = max (DDM.rawThreshold p f) (1/2) := rfl
  have hs : (DDM.mkVoter p f).sigma = max (DDM.rawDiffusion p f) (1/20) := rfl
  have hz : (DDM.mkVoter p f).z =
      (DDM.mkVoter p f).a *
        DDM.npClip (DDM.rawStartProportion p f) (1/10) (9/10) := rfl
  have hapos : (1:ℚ)/2 ≤ (DDM.mkVoter p f).a := ha ▸ le_max_right _ _
  have hclip_lo : (1:ℚ)/10 ≤
      DDM.npClip (DDM.rawStartProportion p f) (1/10) (9/10) :=
    DDM.lo_le_npClip _ _ _ (by norm_num)
  have hclip_hi :
      DDM.npClip (DDM.rawStartProportion p f) (1/10) (9/10) ≤ 9/10 :=
    DDM.npClip_le_hi _ _ _
  refine ⟨hapos, hs ▸ le_max_right _ _, hz, ?_, ?_, ?_, ?_⟩
  · rw [hz, mul_comm (1/10 : ℚ)]
    exact mul_le_mul_of_nonneg_left hclip_lo (by linarith)
  · rw [hz, mul_comm (9/10 : ℚ)]
    exact mul_le_mul_of_nonneg_left hclip_hi (by linarith)
  · intro h; rw [ha]; exact max_eq_right h.le
  · intro h; rw [hs]; exact max_eq_right h.le

/-- Witness for C3: with default parameters and `floorFeatures`, both raw
formulas are strictly below their floors and the realized threshold and
diffusion equal exactly 0.5 and 0.05. -/
theorem C3_construction_invariants_witness :
    DDM.rawThreshold {} DDM.floorFeatures < 1/2 ∧
    DDM.rawDiffusion {} DDM.floorFeatures < 1/20 ∧
    (DDM.mkVoter {} DDM.floorFeatures).a = 1/2 ∧
    (DDM.mkVoter {} DDM.floorFeatures).sigma = 1/20 ∧
    (1/10) * (DDM.mkVoter {} DDM.floorFeatures).a ≤
      (DDM.mkVoter {} DDM.floorFeatures).z := by
  have hth : DDM.rawThreshold {} DDM.floorFeatures < 1/2 := by
    norm_num [DDM.rawThreshold, DDM.floorFeatures]
  have hdf : DDM.rawDiffusion {} DDM.floorFeatures < 1/20 := by
    norm_num [DDM.rawDiffusion, DDM.floorFeatures]
  exact ⟨hth, hdf,
    (C3_construction_invariants {} DDM.floorFeatures).2.2.2.2.2.1 hth,
    (C3_construction_invariants {} DDM.floorFeatures).2.2.2.2.2.2 hdf,
    (C3_construction_invariants {} DDM.floorFeatures).2.2.2.1⟩

/-- **C10**: `apply_nudge` does not re-apply the construction floors: the
implementation nudge sets `a` to `a·(1 − 0.15·plan_quality)` with no 0.5
minimum (so a voter constructed at the 0.5 floor drops below 0.5), the
social-norm and competitiveness nudges multiply σ by 0.85 with no 0.05
minimum (so repeated nudges drive σ below 0.05), and only `z` is
re-clamped, to `[0.05·a', 0.95·a']` for the updated threshold `a'`. -/
theorem C10_nudges_skip_floors :
    (∀ (v : DDM.VoterState) (pq : ℚ),
      (DDM.applyNudge v (.implementation pq)).a = v.a * (1 - (15/100) * pq)) ∧
    (∀ (v : DDM.VoterState) (r pr : ℚ),
      (DDM.applyNudge v (.social_norm r pr)).sigma = v.sigma * (85/100)) ∧
    (∀ (v : DDM.VoterState) (ci : ℚ),
      (DDM.applyNudge v (.competitiveness ci)).sigma = v.sigma * (85/100)) ∧
    (∀ (v : DDM.VoterState) (pq : ℚ),
      (DDM.applyNudge v (.implementation pq)).z =
        DDM.npClip (v.z + (1/10) * pq * (v.a * (1 - (15/100) * pq)))
          ((5/100) * (v.a * (1 - (15/100) * pq)))
          ((95/100) * (v.a * (1 - (15/100) * pq)))) ∧
    ((DDM.mkVoter {} DDM.nearFloorFeatures).a = 1/2 ∧
      (DDM.applyNudge (DDM.mkVoter {} DDM.nearFloorFeatures)
          (.implementation (7/10))).a < 1/2) ∧
    ((DDM.mkVoter {} DDM.nearFloorFeatures).sigma = 2/25 ∧
      (DDM.applyNudge (DDM.applyNudge (DDM.applyNudge
          (DDM.mkVoter {} DDM.nearFloorFeatures)
          (.social_norm (75/100) (1/2))) (.social_norm (75/100) (1/2)))
          (.social_norm (75/100) (1/2))).sigma < 1/20) := by
  have ha : (DDM.mkVoter {} DDM.nearFloorFeatures).a = 1/2 := by
    show max (DDM.rawThreshold {} DDM.nearFloorFeatures) (1/2) = 1/2
    rw [show DDM.rawThreshold {} DDM.nearFloorFeatures = 1/5 by
      norm_num [DDM.rawThreshold, DDM.nearFloorFeatures]]
    exact max_eq_right (by norm_num)
  have hs : (DDM.mkVoter {} DDM.nearFloorFeatures).sigma = 2/25 := by
    show max (DDM.rawDiffusion {} DDM.nearFloorFeatures) (1/20) = 2/25
    rw [show DDM.rawDiffusion {} DDM.nearFloorFeatures = 2/25 by
      norm_num [DDM.rawDiffusion, DDM.nearFloorFeatures]]
    exact max_eq_left (by norm_num)
  refine ⟨fun _ _ => rfl, fun _ _ _ => rfl, fun _ _ => rfl, fun _ _ => rfl,
    ⟨ha, ?_⟩, ⟨hs, ?_⟩⟩
  · have : (DDM.applyNudge (DDM.mkVoter {} DDM.nearFloorFeatures)
        (.implementation (7/10))).a =
        (DDM.mkVoter {} DDM.nearFloorFeatures).a * (1 - (15/100) * (7/10)) :=
      rfl
    rw [this, ha]; norm_num
  · have : (DDM.applyNudge (DDM.applyNudge (DDM.applyNudge
        (DDM.mkVoter {} DDM.nearFloorFeatures)
        (.social_norm (75/100) (1/2))) (.social_norm (75/100) (1/2)))
        (.social_norm (75/100) (1/2))).sigma =
        (((DDM.mkVoter {} DDM.nearFloorFeatures).sigma * (85/100)) *
          (85/100)) * (85/100) := rfl
    rw [this, hs]; norm_num

namespace Sim

/-- Python's `needle in haystack` substring test, on character lists. -/
def charListHasInfix : List Char → List Char → Bool
  | needle, [] => needle.isEmpty
  | needle, c :: t => needle.isPrefixOf (c :: t) || charListHasInfix needle t

/-- Python's `needle in haystack` on strings. -/
def containsSubstring (needle haystack : String) : Bool :=
  charListHasInfix needle.toList haystack.toList

/-- `description` of hypothesis `HN1` in `run_hypothesis_test`. -/
def descHN1 : String := "Monetary lottery more effective for low civic duty"

/-- `description` of hypothesis `HN3` in `run_hypothesis_test`. -/
def descHN3 : String := "Identity framing most effective for moderate civic duty"

/-- `description` of hypothesis `HN6` in `run_hypothesis_test`. -/
def descHN6 : String := "Competitiveness info affects high efficacy voters"

/-- The branch condition of `_test_stratified_effect`:
`'HN1' in config['description'] or 'HN3' in config['description']`. -/
def stratVarIsCivic (description : String) : Bool :=
  containsSubstring "HN1" description || containsSubstring "HN3" description

/-- The stratification choice made by `_test_stratified_effect`. -/
structure StratSpec where
  var : String
  thresholds : List ℚ
  labels : List String
deriving DecidableEq

/-- `thresholds = [0, 0.33, 0.67, 1.0]` of the `civic_duty` branch. -/
def civicThresholds : List ℚ := [0, 33/100, 67/100, 1]

/-- `thresholds = [0, 0.5, 1.0]` of the `education_normalized` branch. -/
def eduThresholds : List ℚ := [0, 1/2, 1]

/-- The stratification variable / thresholds / labels selected by
`_test_stratified_effect` from the hypothesis description text. -/
def stratSpecFor (description : String) : StratSpec :=
  if stratVarIsCivic description then
    ⟨"civic_duty", civicThresholds, ["Low", "Medium", "High"]⟩
  else
    ⟨"education_normalized", eduThresholds, ["Low", "High"]⟩

/-- Membership of a feature value `x` in stratum `i` of the loop in
`_test_stratified_effect`: the loop runs `i` over
`range(len(thresholds) - 1)` and keeps exactly the voters with
`thresholds[i] <= x < thresholds[i+1]` (strictly below the upper edge
for every stratum, the last included). -/
def stratumMem (ts : List ℚ) (i : ℕ) (x : ℚ) : Prop :=
  i + 1 < ts.length ∧ ts.getD i 0 ≤ x ∧ x < ts.getD (i + 1) 0

/-- A value is assigned to some stratum of the threshold list. -/
def inSomeStratum (ts : List ℚ) (x : ℚ) : Prop := ∃ i, stratumMem ts i x

end Sim

/-- **C4 counterexample**: a voter whose stratification feature value is
exactly 1.0 is assigned to no stratum at all — neither for the
two-bin `education_normalized` thresholds nor for the three-bin
`civic_duty` thresholds — contradicting the claim that the highest
stratum is closed at the top and that every value in `[0,1]` is
assigned to exactly one stratum. -/
theorem C4_top_value_in_no_stratum :
    ¬ Sim.inSomeStratum Sim.eduThresholds 1 ∧
    ¬ Sim.inSomeStratum Sim.civicThresholds 1 := by
  constructor
  · rintro ⟨i, hlen, hlo, hhi⟩
    have hl : Sim.eduThresholds.length = 3 := rfl
    rw [hl] at hlen
    have hub : i ≤ 1 := by omega
    interval_cases i
    · have h : Sim.eduThresholds.getD (0 + 1) 0 = 1/2 := rfl
      rw [h] at hhi; linarith
    · have h : Sim.eduThresholds.getD (1 + 1) 0 = 1 := rfl
      rw [h] at hhi; linarith
  · rintro ⟨i, hlen, hlo, hhi⟩
    have hl : Sim.civicThresholds.length = 4 := rfl
    rw [hl] at hlen
    have hub : i ≤ 2 := by omega
    interval_cases i
    · have h : Sim.civicThresholds.getD (0 + 1) 0 = 33/100 := rfl
      rw [h] at hhi; linarith
    · have h : Sim.civicThresholds.getD (1 + 1) 0 = 67/100 := rfl
      rw [h] at hhi; linarith
    · have h : Sim.civicThresholds.getD (2 + 1) 0 = 1 := rfl
      rw [h] at hhi; linarith

/-- **C4 (amended)**: the strata of a stratified hypothesis test cover
the half-open interval `[0, 1)`: every voter whose stratification
feature value lies in `[0, 1)` is assigned to exactly one stratum, for
both the `civic_duty` and the `education_normalized` threshold lists.
A value of exactly 1.0 is assigned to no stratum, because every
stratum — the highest included — is half-open at the top. -/
theorem C4_strata_partition_amended (x : ℚ) (h0 : 0 ≤ x) (h1 : x < 1) :
    (∃! i, Sim.stratumMem Sim.civicThresholds i x) ∧
    (∃! i, Sim.stratumMem Sim.eduThresholds i x) := by
  constructor
  · by_cases hA : x < 33/100
    · refine ⟨0, ⟨by norm_num [Sim.civicThresholds], h0, hA⟩, ?_⟩
      rintro j ⟨hjlen, hjlo, hjhi⟩
      have hl : Sim.civicThresholds.length = 4 := rfl
      rw [hl] at hjlen
      have hub : j ≤ 2 := by omega
      interval_cases j
      · rfl
      · have h : Sim.civicThresholds.getD 1 0 = 33/100 := rfl
        rw [h] at hjlo; linarith
      · have h : Sim.civicThresholds.getD 2 0 = 67/100 := rfl
        rw [h] at hjlo; linarith
    · by_cases hB : x < 67/100
      · refine ⟨1, ⟨by norm_num [Sim.civicThresholds], le_of_not_lt hA, hB⟩, ?_⟩
        rintro j ⟨hjlen, hjlo, hjhi⟩
        have hl : Sim.civicThresholds.length = 4 := rfl
        rw [hl] at hjlen
        have hub : j ≤ 2 := by omega
        interval_cases j
        · have h : Sim.civicThresholds.getD (0 + 1) 0 = 33/100 := rfl
          rw [h] at hjhi; linarith [le_of_not_lt hA]
        · rfl
        · have h : Sim.civicThresholds.getD 2 0 = 67/100 := rfl
          rw [h] at hjlo; linarith
      · refine ⟨2, ⟨by norm_num [Sim.civicThresholds], le_of_not_lt hB, h1⟩, ?_⟩
        rintro j ⟨hjlen, hjlo, hjhi⟩
        have hl : Sim.civicThresholds.length = 4 := rfl
        rw [hl] at hjlen
        have hub : j ≤ 2 := by omega
        interval_cases j
        · have h : Sim.civicThresholds.getD (0 + 1) 0 = 33/100 := rfl
          rw [h] at hjhi; linarith [le_of_not_lt hB]
        · have h : Sim.civicThresholds.getD (1 + 1) 0 = 67/100 := rfl
          rw [h] at hjhi; linarith [le_of_not_lt hB]
        · rfl
  · by_cases hA : x < 1/2
    · refine ⟨0, ⟨by norm_num [Sim.eduThresholds], h0, hA⟩, ?_⟩
      rintro j ⟨hjlen, hjlo, hjhi⟩
      have hl : Sim.eduThresholds.length = 3 := rfl
      rw [hl] at hjlen
      have hub : j ≤ 1 := by omega
      interval_cases j
      · rfl
      · have h : Sim.eduThresholds.getD 1 0 = 1/2 := rfl
        rw [h] at hjlo; linarith
    · refine ⟨1, ⟨by norm_num [Sim.eduThresholds], le_of_not_lt hA, h1⟩, ?_⟩
      rintro j ⟨hjlen, hjlo, hjhi⟩
      have hl : Sim.eduThresholds.length = 3 := rfl
      rw [hl] at hjlen
      have hub : j ≤ 1 := by omega
      interval_cases j
      · have h : Sim.eduThresholds.getD (0 + 1) 0 = 1/2 := rfl
        rw [h] at hjhi; linarith [le_of_not_lt hA]
      · rfl

/-- Witness for the amended C4: the value 0.5 lies in `[0, 1)` and is
assigned to exactly one stratum in both threshold lists. -/
theorem C4_strata_partition_amended_witness :
    (0 : ℚ) ≤ 1/2 ∧ (1/2 : ℚ) < 1 ∧
    ((∃! i, Sim.stratumMem Sim.civicThresholds i (1/2)) ∧
     (∃! i, Sim.stratumMem Sim.eduThresholds i (1/2))) :=
  ⟨by norm_num, by norm_num,
   C4_strata_partition_amended (1/2) (by norm_num) (by norm_num)⟩

/-- **C9**: none of the three configured stratified hypotheses (HN1, HN3,
HN6) has the literal substring `'HN1'` or `'HN3'` in its description
text, so `_test_stratified_effect` always selects the two-bin
`education_normalized` stratification with labels Low/High; the
`civic_duty` three-bin branch is unreachable from `run_hypothesis_test`. -/
theorem C9_stratification_always_education :
    Sim.stratVarIsCivic Sim.descHN1 = false ∧
    Sim.stratVarIsCivic Sim.descHN3 = false ∧
    Sim.stratVarIsCivic Sim.descHN6 = false ∧
    Sim.stratSpecFor Sim.descHN1 =
      ⟨"education_normalized", Sim.eduThresholds, ["Low", "High"]⟩ ∧
    Sim.stratSpecFor Sim.descHN3 =
      ⟨"education_normalized", Sim.eduThresholds, ["Low", "High"]⟩ ∧
    Sim.stratSpecFor Sim.descHN6 =
      ⟨"education_normalized", Sim.eduThresholds, ["Low", "High"]⟩ := by
  have h1 : Sim.stratVarIsCivic Sim.descHN1 = false := by decide
  have h3 : Sim.stratVarIsCivic Sim.descHN3 = false := by decide
  have h6 : Sim.stratVarIsCivic Sim.descHN6 = false := by decide
  refine ⟨h1, h3, h6, ?_, ?_, ?_⟩ <;>
    simp [Sim.stratSpecFor, h1, h3, h6]

namespace Survey

/-- Elementwise unary arithmetic on a pandas column value (`NaN` maps to
`NaN`, modelled as `none`). -/
def omap (f : ℚ → ℚ) : Option ℚ → Option ℚ := Option.map f

/-- Elementwise binary arithmetic on pandas column values: `NaN`
propagates if either operand is missing. -/
def oadd : Option ℚ → Option ℚ → Option ℚ
  | some a, some b => some (a + b)
  | _, _ => none

/-- `df[[c1, c2]].mean(axis=1)`: pandas row mean skips missing values and
is `NaN` only when both are missing. -/
def rowMean2 : Option ℚ → Option ℚ → Option ℚ
  | some a, some b => some ((a + b) / 2)
  | some a, none => some a
  | none, some b => some b
  | none, none => none

/-- `df[[c1, c2, c3, c4]].mean(axis=1)`: pandas row mean over four
columns, skipping missing values. -/
def rowMean4 (a b c d : Option ℚ) : Option ℚ :=
  let vals := [a, b, c, d].filterMap id
  if vals.length = 0 then none else some (vals.sum / (vals.length : ℚ))

/-- The nine question columns consumed by `create_composite_scores`
(numeric after coercion; missing values as `none`). -/
structure SurveyNumRow where
  q2_frequency : Option ℚ
  q3_effort_tradeoff : Option ℚ
  q4_perceived_impact : Option ℚ
  q5_civic_duty : Option ℚ
  q7_trust : Option ℚ
  q8_social_influence : Option ℚ
  q9_information_load : Option ℚ
  q10_disillusionment : Option ℚ
  q12_competitiveness : Option ℚ
deriving DecidableEq

/-- The eight derived composite-score columns. -/
structure CompositeScores where
  civic_duty_score : Option ℚ
  social_pressure_score : Option ℚ
  habit_score : Option ℚ
  cost_score : Option ℚ
  benefit_score : Option ℚ
  trust_score : Option ℚ
  engagement_score : Option ℚ
  voting_utility : Option ℚ
deriving DecidableEq

/-- `VoterSurveyAnalysis.create_composite_scores`
(`comprehensive_analysis.py`), per row. -/
def comprehensiveCompositeScores (r : SurveyNumRow) : CompositeScores :=
  let civic := omap (fun v => 6 - v) r.q5_civic_duty
  let social := omap (fun v => 6 - v) r.q8_social_influence
  let habit := omap (fun v => 6 - v) r.q2_frequency
  let cost := rowMean2 r.q3_effort_tradeoff r.q9_information_load
  let benefit := omap (fun v => v / 2)
    (oadd (omap (fun v => 6 - v) r.q4_perceived_impact)
          (omap (fun v => 6 - v) r.q12_competitiveness))
  let trust := omap (fun v => 6 - v) (rowMean2 r.q7_trust r.q10_disillusionment)
  let engagement := rowMean4 civic habit benefit trust
  let utility :=
    oadd (oadd (oadd (oadd (omap (fun v => v * (2/10)) benefit)
                           (omap (fun v => -v * (15/100)) cost))
                     (omap (fun v => v * (25/100)) civic))
               (omap (fun v => v * (15/100)) social))
         (omap (fun v => v * (25/100)) habit)
  ⟨civic, social, habit, cost, benefit, trust, engagement, utility⟩

/-- `HypothesisTester.create_composite_scores`
(`hypothesis_testing.py`), per row — the independent recomputation. -/
def hypothesisCompositeScores (r : SurveyNumRow) : CompositeScores :=
  let civic := omap (fun v => 6 - v) r.q5_civic_duty
  let social := omap (fun v => 6 - v) r.q8_social_influence
  let habit := omap (fun v => 6 - v) r.q2_frequency
  let cost := rowMean2 r.q3_effort_tradeoff r.q9_information_load
  let benefit := omap (fun v => v / 2)
    (oadd (omap (fun v => 6 - v) r.q4_perceived_impact)
          (omap (fun v => 6 - v) r.q12_competitiveness))
  let trust := omap (fun v => 6 - v) (rowMean2 r.q7_trust r.q10_disillusionment)
  let engagement := rowMean4 civic habit benefit trust
  let utility :=
    oadd (oadd (oadd (oadd (omap (fun v => v * (2/10)) benefit)
                           (omap (fun v => -v * (15/100)) cost))
                     (omap (fun v => v * (25/100)) civic))
               (omap (fun v => v * (15/100)) social))
         (omap (fun v => v * (25/100)) habit)
  ⟨civic, social, habit, cost, benefit, trust, engagement, utility⟩

/-- Modelled from the wording of §4.9: `civic_duty_score = 6 − q5`. -/
def specCivicDuty (q5 : ℚ) : ℚ := 6 - q5

/-- Modelled from the wording of §4.9: `social_pressure_score = 6 − q8`. -/
def specSocialPressure (q8 : ℚ) : ℚ := 6 - q8

/-- Modelled from the wording of §4.9: `habit_score = 6 − q2`. -/
def specHabit (q2 : ℚ) : ℚ := 6 - q2

/-- Modelled from the wording of §4.9: `cost_score = mean(q3, q9)`. -/
def specCost (q3 q9 : ℚ) : ℚ := (q3 + q9) / 2

/-- Modelled from the wording of §4.9:
`benefit_score = [(6 − q4) + (6 − q12)] / 2`. -/
def specBenefit (q4 q12 : ℚ) : ℚ := ((6 - q4) + (6 - q12)) / 2

/-- Modelled from the wording of §4.9:
`trust_score = 6 − mean(q7, q10)`. -/
def specTrust (q7 q10 : ℚ) : ℚ := 6 - (q7 + q10) / 2

/-- Modelled from the wording of §4.9: `engagement_score` is the mean of
the civic-duty, habit, benefit and trust scores. -/
def specEngagement (q2 q4 q5 q7 q10 q12 : ℚ) : ℚ :=
  (specCivicDuty q5 + specHabit q2 + specBenefit q4 q12 + specTrust q7 q10) / 4

/-- Modelled from the wording of §4.9: `voting_utility = 0.20·benefit −
0.15·cost + 0.25·civic_duty + 0.15·social_pressure + 0.25·habit`. -/
def specVotingUtility (q2 q3 q4 q5 q8 q9 q12 : ℚ) : ℚ :=
  (20/100) * specBenefit q4 q12 - (15/100) * specCost q3 q9 +
  (25/100) * specCivicDuty q5 + (15/100) * specSocialPressure q8 +
  (25/100) * specHabit q2

/-- A fully answered row built from nine raw question values. -/
def fullRow (q2 q3 q4 q5 q7 q8 q9 q10 q12 : ℚ) : SurveyNumRow :=
  ⟨some q2, some q3, some q4, some q5, some q7, some q8, some q9,
   some q10, some q12⟩

theorem rowMean4_some (a b c d : ℚ) :
    rowMean4 (some a) (some b) (some c) (some d) = some ((a + b + c + d) / 4) := by
  unfold rowMean4
  norm_num [List.filterMap]
  ring

end Survey

/-- **C2**: the composite-score computation of the Comprehensive Analysis
and the independent recomputation of the Hypothesis Tester produce
identical values on every row (missing values included), and on any
fully answered row every one of the eight composite scores equals the
reference formula of §4.9 of the specification. -/
theorem C2_composite_scores_agree :
    (∀ r : Survey.SurveyNumRow,
      Survey.comprehensiveCompositeScores r = Survey.hypothesisCompositeScores r) ∧
    (∀ q2 q3 q4 q5 q7 q8 q9 q10 q12 : ℚ,
      (Survey.comprehensiveCompositeScores
          (Survey.fullRow q2 q3 q4 q5 q7 q8 q9 q10 q12)).civic_duty_score =
        some (Survey.specCivicDuty q5) ∧
      (Survey.comprehensiveCompositeScores
          (Survey.fullRow q2 q3 q4 q5 q7 q8 q9 q10 q12)).social_pressure_score =
        some (Survey.specSocialPressure q8) ∧
      (Survey.comprehensiveCompositeScores
          (Survey.fullRow q2 q3 q4 q5 q7 q8 q9 q10 q12)).habit_score =
        some (Survey.specHabit q2) ∧
      (Survey.comprehensiveCompositeScores
          (Survey.fullRow q2 q3 q4 q5 q7 q8 q9 q10 q12)).cost_score =
        some (Survey.specCost q3 q9) ∧
      (Survey.comprehensiveCompositeScores
          (Survey.fullRow q2 q3 q4 q5 q7 q8 q9 q10 q12)).benefit_score =
        some (Survey.specBenefit q4 q12) ∧
      (Survey.comprehensiveCompositeScores
          (Survey.fullRow q2 q3 q4 q5 q7 q8 q9 q10 q12)).trust_score =
        some (Survey.specTrust q7 q10) ∧
      (Survey.comprehensiveCompositeScores
          (Survey.fullRow q2 q3 q4 q5 q7 q8 q9 q10 q12)).engagement_score =
        some (Survey.specEngagement q2 q4 q5 q7 q10 q12) ∧
      (Survey.comprehensiveCompositeScores
          (Survey.fullRow q2 q3 q4 q5 q7 q8 q9 q10 q12)).voting_utility =
        some (Survey.specVotingUtility q2 q3 q4 q5 q8 q9 q12)) := by
  refine ⟨fun r => rfl, fun q2 q3 q4 q5 q7 q8 q9 q10 q12 => ?_⟩
  refine ⟨rfl, rfl, rfl, rfl, rfl, rfl, ?_, ?_⟩
  · show Survey.rowMean4 (some (6 - q5)) (some (6 - q2))
      (some ((6 - q4 + (6 - q12)) / 2)) (some (6 - (q7 + q10) / 2)) =
      some (Survey.specEngagement q2 q4 q5 q7 q10 q12)
    rw [Survey.rowMean4_some]
    unfold Survey.specEngagement Survey.specCivicDuty Survey.specHabit
      Survey.specBenefit Survey.specTrust
    congr 1
  · show some ((6 - q4 + (6 - q12)) / 2 * (2/10) +
        -((q3 + q9) / 2) * (15/100) + (6 - q5) * (25/100) +
        (6 - q8) * (15/100) + (6 - q2) * (25/100)) =
      some (Survey.specVotingUtility q2 q3 q4 q5 q8 q9 q12)
    unfold Survey.specVotingUtility Survey.specBenefit Survey.specCost
      Survey.specCivicDuty Survey.specSocialPressure Survey.specHabit
    congr 1
    ring

namespace Survey

/-- `df[[col1, col2]].dropna()`: the rows where both columns are
non-missing. -/
def completePairs (rows : List (Option ℚ × Option ℚ)) : List (ℚ × ℚ) :=
  rows.filterMap (fun rr =>
    match rr with
    | (some a, some b) => some (a, b)
    | _ => none)

/-- `safe_corr` of `comprehensive_analysis.py` (local helper inside
`model_component_correlations`): computes Pearson `(r, p)` on the
pairwise-complete data only when `len(data) > 10` (strictly more than
ten complete pairs); otherwise returns the `(None, None, 0)`
insufficient-data signal, modelled as `none`.  The Pearson statistic
itself is abstracted as the argument `pearson`. -/
def safeCorrComprehensive (pearson : List (ℚ × ℚ) → ℚ × ℚ)
    (rows : List (Option ℚ × Option ℚ)) : Option (ℚ × ℚ × ℕ) :=
  let data := completePairs rows
  if 10 < data.length then
    some ((pearson data).1, (pearson data).2, data.length)
  else
    none

/-- `HypothesisTester.safe_corr` of `hypothesis_testing.py`: identical
except that the guard is `len(data) >= 10`. -/
def safeCorrHypothesis (pearson : List (ℚ × ℚ) → ℚ × ℚ)
    (rows : List (Option ℚ × Option ℚ)) : Option (ℚ × ℚ × ℕ) :=
  let data := completePairs rows
  if 10 ≤ data.length then
    some ((pearson data).1, (pearson data).2, data.length)
  else
    none

/-- A placeholder Pearson statistic for concrete evaluations. -/
def pearsonZero : List (ℚ × ℚ) → ℚ × ℚ := fun _ => (0, 0)

/-- Ten rows, all pairwise complete. -/
def tenCompleteRows : List (Option ℚ × Option ℚ) :=
  List.replicate 10 (some 1, some 2)

end Survey

/-- **C5 counterexample**: on a dataset with exactly 10 complete pairs,
the Comprehensive Analysis helper reports the insufficient-data outcome
(its guard is `len(data) > 10`), while the Hypothesis Tester helper
reports a result — contradicting the claim that both report a result
whenever at least 10 complete pairs exist. -/
theorem C5_ten_pairs_disagree :
    (Survey.completePairs Survey.tenCompleteRows).length = 10 ∧
    Survey.safeCorrComprehensive Survey.pearsonZero Survey.tenCompleteRows =
      none ∧
    Survey.safeCorrHypothesis Survey.pearsonZero Survey.tenCompleteRows =
      some (0, 0, 10) :=
  ⟨rfl, rfl, rfl⟩

/-- **C5 (amended)**: the Hypothesis Tester's `safe_corr` reports a
correlation, p-value and sample size exactly when at least 10 complete
pairs exist; the Comprehensive Analysis copy requires strictly more
than 10 complete pairs (at least 11), reporting the insufficient-data
outcome at exactly 10. -/
theorem C5_safe_corr_thresholds_amended
    (pearson : List (ℚ × ℚ) → ℚ × ℚ)
    (rows : List (Option ℚ × Option ℚ)) :
    (Survey.safeCorrHypothesis pearson rows ≠ none ↔
      10 ≤ (Survey.completePairs rows).length) ∧
    (Survey.safeCorrComprehensive pearson rows ≠ none ↔
      10 < (Survey.completePairs rows).length) := by
  constructor
  · simp only [Survey.safeCorrHypothesis]
    split_ifs with h <;> simp [h]
  · simp only [Survey.safeCorrComprehensive]
    split_ifs with h <;> simp [h]

/-- Witness for the amended C5: on the ten-pair dataset the Hypothesis
Tester helper reports a result and the Comprehensive Analysis helper
does not. -/
theorem C5_safe_corr_thresholds_amended_witness :
    Survey.safeCorrHypothesis Survey.pearsonZero Survey.tenCompleteRows ≠
      none ∧
    ¬ (Survey.safeCorrComprehensive Survey.pearsonZero
        Survey.tenCompleteRows ≠ none) :=
  ⟨(C5_safe_corr_thresholds_amended Survey.pearsonZero
      Survey.tenCompleteRows).1.mpr (by norm_num [Survey.tenCompleteRows,
        Survey.completePairs]),
   fun h => by
    have := (C5_safe_corr_thresholds_amended Survey.pearsonZero
      Survey.tenCompleteRows).2.mp h
    norm_num [Survey.tenCompleteRows, Survey.completePairs] at this⟩

namespace Survey

/-- One annotated row of the cleaner's table: the 13 required question
columns (missing values as `none`), representative untouched columns,
and the removal flag column. -/
structure CleanRow where
  q1_emotion : Option ℚ
  q2_frequency : Option ℚ
  q3_effort_tradeoff : Option ℚ
  q4_perceived_impact : Option ℚ
  q5_civic_duty : Option ℚ
  q6_emotional_reward : Option ℚ
  q7_trust : Option ℚ
  q8_social_influence : Option ℚ
  q9_information_load : Option ℚ
  q10_disillusionment : Option ℚ
  q11_online_voting : Option ℚ
  q12_competitiveness : Option ℚ
  q13_incentive : Option ℚ
  id : String
  age_range : Option String
  location : Option String
  q14_open_response : Option String
  recommended_for_removal : Bool := false
deriving DecidableEq

/-- `self.df[self.required_cols].isna().all(axis=1)` for one row: every
one of the 13 required question values is missing. -/
def allQuestionsMissing (r : CleanRow) : Bool :=
  r.q1_emotion.isNone && r.q2_frequency.isNone &&
  r.q3_effort_tradeoff.isNone && r.q4_perceived_impact.isNone &&
  r.q5_civic_duty.isNone && r.q6_emotional_reward.isNone &&
  r.q7_trust.isNone && r.q8_social_influence.isNone &&
  r.q9_information_load.isNone && r.q10_disillusionment.isNone &&
  r.q11_online_voting.isNone && r.q12_competitiveness.isNone &&
  r.q13_incentive.isNone

/-- `VoterSurveyDataCleaner.identify_removals`, per row: sets the
`recommended_for_removal` column to the all-questions-missing flag and
touches nothing else. -/
def identifyRemovals (r : CleanRow) : CleanRow :=
  { r with recommended_for_removal := allQuestionsMissing r }

/-- A row with 12 of the 13 required questions missing (only
`q1_emotion` answered). -/
def twelveMissingRow : CleanRow :=
  { q1_emotion := some 3, q2_frequency := none, q3_effort_tradeoff := none
    q4_perceived_impact := none, q5_civic_duty := none
    q6_emotional_reward := none, q7_trust := none
    q8_social_influence := none, q9_information_load := none
    q10_disillusionment := none, q11_online_voting := none
    q12_competitiveness := none, q13_incentive := none
    id := "resp_12_of_13", age_range := none, location := none
    q14_open_response := none }

/-- A row with all 13 required questions missing. -/
def emptyRow : CleanRow :=
  { twelveMissingRow with q1_emotion := none, id := "resp_empty" }

end Survey

/-- **C7**: `identify_removals` flags a row `recommended_for_removal =
true` iff every one of the 13 required question values is missing; a
row with 12 of 13 missing is flagged `false`; and flagging changes no
other field of the row. -/
theorem C7_identify_removals (r : Survey.CleanRow) :
    ((Survey.identifyRemovals r).recommended_for_removal = true ↔
      (r.q1_emotion = none ∧ r.q2_frequency = none ∧
       r.q3_effort_tradeoff = none ∧ r.q4_perceived_impact = none ∧
       r.q5_civic_duty = none ∧ r.q6_emotional_reward = none ∧
       r.q7_trust = none ∧ r.q8_social_influence = none ∧
       r.q9_information_load = none ∧ r.q10_disillusionment = none ∧
       r.q11_online_voting = none ∧ r.q12_competitiveness = none ∧
       r.q13_incentive = none)) ∧
    (Survey.identifyRemovals Survey.twelveMissingRow).recommended_for_removal
      = false ∧
    (Survey.identifyRemovals r).q1_emotion = r.q1_emotion ∧
    (Survey.identifyRemovals r).q2_frequency = r.q2_frequency ∧
    (Survey.identifyRemovals r).q3_effort_tradeoff = r.q3_effort_tradeoff ∧
    (Survey.identifyRemovals r).q4_perceived_impact = r.q4_perceived_impact ∧
    (Survey.identifyRemovals r).q5_civic_duty = r.q5_civic_duty ∧
    (Survey.identifyRemovals r).q6_emotional_reward = r.q6_emotional_reward ∧
    (Survey.identifyRemovals r).q7_trust = r.q7_trust ∧
    (Survey.identifyRemovals r).q8_social_influence = r.q8_social_influence ∧
    (Survey.identifyRemovals r).q9_information_load = r.q9_information_load ∧
    (Survey.identifyRemovals r).q10_disillusionment = r.q10_disillusionment ∧
    (Survey.identifyRemovals r).q11_online_voting = r.q11_online_voting ∧
    (Survey.identifyRemovals r).q12_competitiveness = r.q12_competitiveness ∧
    (Survey.identifyRemovals r).q13_incentive = r.q13_incentive ∧
    (Survey.identifyRemovals r).id = r.id ∧
    (Survey.identifyRemovals r).age_range = r.age_range ∧
    (Survey.identifyRemovals r).location = r.location ∧
    (Survey.identifyRemovals r).q14_open_response = r.q14_open_response := by
  refine ⟨?_, rfl, rfl, rfl, rfl, rfl, rfl, rfl, rfl, rfl, rfl, rfl, rfl,
    rfl, rfl, rfl, rfl, rfl, rfl⟩
  simp [Survey.identifyRemovals, Survey.allQuestionsMissing,
    Option.isNone_iff_eq_none, and_assoc]

/-- Witness for C7: a fully empty row is flagged for removal, and the
12-of-13 row is not. -/
theorem C7_identify_removals_witness :
    ((Survey.identifyRemovals Survey.emptyRow).recommended_for_removal = true ↔
      (Survey.emptyRow.q1_emotion = none ∧
       Survey.emptyRow.q2_frequency = none ∧
       Survey.emptyRow.q3_effort_tradeoff = none ∧
       Survey.emptyRow.q4_perceived_impact = none ∧
       Survey.emptyRow.q5_civic_duty = none ∧
       Survey.emptyRow.q6_emotional_reward = none ∧
       Survey.emptyRow.q7_trust = none ∧
       Survey.emptyRow.q8_social_influence = none ∧
       Survey.emptyRow.q9_information_load = none ∧
       Survey.emptyRow.q10_disillusionment = none ∧
       Survey.emptyRow.q11_online_voting = none ∧
       Survey.emptyRow.q12_competitiveness = none ∧
       Survey.emptyRow.q13_incentive = none)) :=
  (C7_identify_removals Survey.emptyRow).1

namespace Cfg

/-- A JSON-like value, sufficient for the configuration documents and
feature dictionaries handled by the simulation entry point. -/
inductive JValue where
  | num (q : ℚ)
  | str (s : String)
  | obj (fields : List (String × JValue))

/-- Python `dict[key]` lookup on an ordered field list (first match). -/
def lookupKey : List (String × JValue) → String → Option JValue
  | [], _ => none
  | (k, v) :: rest, key => if k = key then some v else lookupKey rest key

/-- Python `dict[key] = value`: replaces the value at an existing key in
place, otherwise appends the new binding. -/
def setKey : List (String × JValue) → String → JValue → List (String × JValue)
  | [], key, v => [(key, v)]
  | (k, w) :: rest, key, v =>
    if k = key then (k, v) :: rest else (k, w) :: setKey rest key v

theorem lookupKey_setKey_self (fs : List (String × JValue)) (k : String)
    (v : JValue) : lookupKey (setKey fs k v) k = some v := by
  induction fs with
  | nil => simp [setKey, lookupKey]
  | cons kv rest ih =>
    by_cases h : kv.1 = k
    · simp [setKey, lookupKey, h]
    · simp [setKey, lookupKey, h, ih]

theorem lookupKey_setKey_ne (fs : List (String × JValue)) (k k' : String)
    (v : JValue) (h : k' ≠ k) :
    lookupKey (setKey fs k v) k' = lookupKey fs k' := by
  have hkk : k ≠ k' := Ne.symm h
  induction fs with
  | nil => simp [setKey, lookupKey, hkk]
  | cons kv rest ih =>
    by_cases hk : kv.1 = k
    · subst hk
      simp [setKey, lookupKey, hkk]
    · simp [setKey, lookupKey, hk, ih]

/-- Lookup of a key inside a JSON object value. -/
def objLookup (j : JValue) (k : String) : Option JValue :=
  match j with
  | .obj fs => lookupKey fs k
  | _ => none

end Cfg

namespace Main

open Cfg

/-- The replacement value written by `main` in mode `all`:
`{'drift_rate_base': …, 'threshold_base': …, 'drift_components':
{'beta_D': …, 'beta_H': …, 'beta_S': …, 'beta_C': …}}`. -/
def calibratedDDMObject (dr tb bD bH bS bC : ℚ) : JValue :=
  .obj [("drift_rate_base", .num dr),
        ("threshold_base", .num tb),
        ("drift_components", .obj
          [("beta_D", .num bD), ("beta_H", .num bH),
           ("beta_S", .num bS), ("beta_C", .num bC)])]

/-- The configuration update of `main` in mode `all`:
`config['model_calibration_parameters']['drift_diffusion_model'] = {…}`
followed by writing `config` to `calibrated_config.json`.  A missing or
non-object `model_calibration_parameters` raises (modelled as `none`). -/
def updateConfigAll (config : JValue) (dr tb bD bH bS bC : ℚ) :
    Option JValue :=
  match config with
  | .obj fields =>
    match lookupKey fields "model_calibration_parameters" with
    | some (.obj mcp) =>
        some (.obj (setKey fields "model_calibration_parameters"
          (.obj (setKey mcp "drift_diffusion_model"
            (calibratedDDMObject dr tb bD bH bS bC)))))
    | _ => none
  | _ => none

/-- Lookup of a key inside `model_calibration_parameters →
drift_diffusion_model` of a configuration document. -/
def lookupDDMKey (config : JValue) (k : String) : Option JValue :=
  match objLookup config "model_calibration_parameters" with
  | some mcp =>
    match objLookup mcp "drift_diffusion_model" with
    | some ddm => objLookup ddm k
    | none => none
  | none => none

/-- A configuration whose `drift_diffusion_model` section holds a key
(`sigma_base`) beyond the six calibrated coefficients. -/
def configWithSigma : JValue :=
  .obj [("feature_definitions", .str "fd"),
        ("model_calibration_parameters", .obj
          [("drift_diffusion_model", .obj
            [("sigma_base", .num (3/10)),
             ("drift_rate_base", .num (1/10))])]),
        ("simulation_scenarios", .str "scenarios")]

end Main

/-- **C6 counterexample**: in mode `all`, the update replaces the whole
`drift_diffusion_model` object with the six calibrated coefficients;
on a configuration carrying an extra key `sigma_base` under
`model_calibration_parameters.drift_diffusion_model`, the update
succeeds but the written configuration no longer contains that key —
contradicting the claim that all keys beyond the six calibrated ones
are preserved verbatim. -/
theorem C6_extra_ddm_key_dropped :
    Main.lookupDDMKey Main.configWithSigma "sigma_base" =
      some (.num (3/10)) ∧
    (Main.updateConfigAll Main.configWithSigma (12/100) (18/10) (14/100)
        (16/100) (19/100) (-11/100)).map
      (fun c => Main.lookupDDMKey c "sigma_base") = some none :=
  ⟨rfl, rfl⟩

/-- **C6 (amended)**: whenever `model_calibration_parameters` is an
object of the configuration, the mode-`all` update succeeds and the
written configuration preserves every top-level key other than
`model_calibration_parameters` verbatim, preserves every key of
`model_calibration_parameters` other than `drift_diffusion_model`
verbatim, and replaces `drift_diffusion_model` wholesale with exactly
the six-coefficient object — so any keys originally present under
`drift_diffusion_model` beyond the six calibrated ones are dropped. -/
theorem C6_update_config_amended
    (fields mcp : List (String × Cfg.JValue)) (dr tb bD bH bS bC : ℚ)
    (hmcp : Cfg.lookupKey fields "model_calibration_parameters" =
      some (.obj mcp)) :
    Main.updateConfigAll (.obj fields) dr tb bD bH bS bC =
      some (.obj (Cfg.setKey fields "model_calibration_parameters"
        (.obj (Cfg.setKey mcp "drift_diffusion_model"
          (Main.calibratedDDMObject dr tb bD bH bS bC))))) ∧
    (∀ k, k ≠ "model_calibration_parameters" →
      Cfg.lookupKey (Cfg.setKey fields "model_calibration_parameters"
        (.obj (Cfg.setKey mcp "drift_diffusion_model"
          (Main.calibratedDDMObject dr tb bD bH bS bC)))) k =
        Cfg.lookupKey fields k) ∧
    (∀ k, k ≠ "drift_diffusion_model" →
      Cfg.lookupKey (Cfg.setKey mcp "drift_diffusion_model"
        (Main.calibratedDDMObject dr tb bD bH bS bC)) k =
        Cfg.lookupKey mcp k) ∧
    Cfg.lookupKey (Cfg.setKey mcp "drift_diffusion_model"
        (Main.calibratedDDMObject dr tb bD bH bS bC))
        "drift_diffusion_model" =
      some (Main.calibratedDDMObject dr tb bD bH bS bC) := by
  refine ⟨?_, ?_, ?_, ?_⟩
  · simp [Main.updateConfigAll, hmcp]
  · intro k hk
    exact Cfg.lookupKey_setKey_ne _ _ _ _ hk
  · intro k hk
    exact Cfg.lookupKey_setKey_ne _ _ _ _ hk
  · exact Cfg.lookupKey_setKey_self _ _ _

/-- Witness for the amended C6: the update of `configWithSigma` succeeds,
preserves the unrelated top-level key `feature_definitions`, and
replaces `drift_diffusion_model` with the six-coefficient object. -/
theorem C6_update_config_amended_witness :
    Main.updateConfigAll Main.configWithSigma (12/100) (18/10) (14/100)
        (16/100) (19/100) (-11/100) =
      some (.obj (Cfg.setKey
        [("feature_definitions", .str "fd"),
         ("model_calibration_parameters", .obj
           [("drift_diffusion_model", .obj
             [("sigma_base", .num (3/10)),
              ("drift_rate_base", .num (1/10))])]),
         ("simulation_scenarios", .str "scenarios")]
        "model_calibration_parameters"
        (.obj (Cfg.setKey
          [("drift_diffusion_model", .obj
            [("sigma_base", .num (3/10)),
             ("drift_rate_base", .num (1/10))])]
          "drift_diffusion_model"
          (Main.calibratedDDMObject (12/100) (18/10) (14/100) (16/100)
            (19/100) (-11/100)))))) ∧
    Cfg.lookupKey (Cfg.setKey
        [("feature_definitions", .str "fd"),
         ("model_calibration_parameters", .obj
           [("drift_diffusion_model", .obj
             [("sigma_base", .num (3/10)),
              ("drift_rate_base", .num (1/10))])]),
         ("simulation_scenarios", .str "scenarios")]
        "model_calibration_parameters"
        (.obj (Cfg.setKey
          [("drift_diffusion_model", .obj
            [("sigma_base", .num (3/10)),
             ("drift_rate_base", .num (1/10))])]
          "drift_diffusion_model"
          (Main.calibratedDDMObject (12/100) (18/10) (14/100) (16/100)
            (19/100) (-11/100)))))
        "feature_definitions" =
      Cfg.lookupKey
        [("feature_definitions", .str "fd"),
         ("model_calibration_parameters", .obj
           [("drift_diffusion_model", .obj
             [("sigma_base", .num (3/10)),
              ("drift_rate_base", .num (1/10))])]),
         ("simulation_scenarios", .str "scenarios")]
        "feature_definitions" :=
  ⟨(C6_update_config_amended
      [("feature_definitions", .str "fd"),
       ("model_calibration_parameters", .obj
         [("drift_diffusion_model", .obj
           [("sigma_base", .num (3/10)),
            ("drift_rate_base", .num (1/10))])]),
       ("simulation_scenarios", .str "scenarios")]
      [("drift_diffusion_model", .obj
        [("sigma_base", .num (3/10)),
         ("drift_rate_base", .num (1/10))])]
      (12/100) (18/10) (14/100) (16/100) (19/100) (-11/100) rfl).1,
   (C6_update_config_amended
      [("feature_definitions", .str "fd"),
       ("model_calibration_parameters", .obj
         [("drift_diffusion_model", .obj
           [("sigma_base", .num (3/10)),
            ("drift_rate_base", .num (1/10))])]),
       ("simulation_scenarios", .str "scenarios")]
      [("drift_diffusion_model", .obj
        [("sigma_base", .num (3/10)),
         ("drift_rate_base", .num (1/10))])]
      (12/100) (18/10) (14/100) (16/100) (19/100) (-11/100) rfl).2.1
      "feature_definitions" (by decide)⟩

namespace Agents

open Cfg

/-- `FeatureGenerationSpec`: the five recognized generation methods of
`AgentGenerator._generate_feature` as a tagged variant (per the data
model, an unrecognized method tag is a fatal configuration error). -/
inductive FeatureGenMethod where
  | beta_distribution (alpha beta : ℚ)
  | beta_distribution_from_proxy (proxy_value : ℚ)
      (high_skew_params low_skew_params : ℚ × ℚ)
  | binomial_draw_normalized (num_elections : ℕ) (probability : ℚ)
  | probabilistic_distribution (literacy_rate : ℚ)
  | probabilistic_assignment (probability_urban : ℚ)

/-- A `Scenario` record of the configuration: unique name, generation
rules (`population_size` plus per-feature specs, in insertion order) and
the constant `global_context` mapping. -/
structure Scenario where
  scenario_name : String
  population_size : ℕ
  generation_rules : List (String × FeatureGenMethod)
  global_context : List (String × JValue)

/-- The configuration section consumed by `AgentGenerator`. -/
structure Config where
  simulation_scenarios : List Scenario

/-- `AgentGenerator._get_scenario`: first scenario with a matching name,
else `None`. -/
def findScenario (cfg : Config) (name : String) : Option Scenario :=
  cfg.simulation_scenarios.find? (fun sc => sc.scenario_name == name)

/-- An agent feature record: a Python dict from feature name to value. -/
abbrev Agent := List (String × JValue)

/-- `AgentGenerator._add_default_features`, with the random `age` draw
supplied by an oracle: builds the defaults dict (reading the agent's
existing `partisan_identity_strength` via `.get`), then inserts each
default only for keys still absent. -/
def addDefaultFeatures (age : ℚ) (agent : Agent) : Agent :=
  let defaults : List (String × JValue) :=
    [("age", .num age),
     ("issue_salience", .num (1/2)),
     ("partisan_identity_strength",
       (lookupKey agent "partisan_identity_strength").getD (.num (1/2))),
     ("perceived_integrity", .num (6/10)),
     ("personality_match_candidate", .num (1/2))]
  defaults.foldl
    (fun acc kv =>
      if (lookupKey acc kv.1).isNone then setKey acc kv.1 kv.2 else acc)
    agent

/-- `AgentGenerator._generate_single_agent`, with the random feature
draws supplied by `oracle` (indexed by agent id, feature name and
generation spec) and the `age` default draw by `ageOracle`: starts from
`{'voter_id': f"agent_{agent_id}"}`, generates each rule feature,
overwrites/augments with `global_context`, then back-fills defaults. -/
def generateSingleAgent (oracle : ℕ → String → FeatureGenMethod → ℚ)
    (ageOracle : ℕ → ℚ) (i : ℕ)
    (rules : List (String × FeatureGenMethod))
    (context : List (String × JValue)) : Agent :=
  let base : Agent := [("voter_id", .str ("agent_" ++ toString i))]
  let withFeatures := rules.foldl
    (fun acc kv => setKey acc kv.1 (.num (oracle i kv.1 kv.2))) base
  let withContext := context.foldl
    (fun acc kv => setKey acc kv.1 kv.2) withFeatures
  addDefaultFeatures (ageOracle i) withContext

/-- `AgentGenerator.generate_population`: resolves the scenario (raising
`ValueError` with the scenario name when absent) and generates
`population_size` agents with ids `0 .. population_size - 1`. -/
def generatePopulation (oracle : ℕ → String → FeatureGenMethod → ℚ)
    (ageOracle : ℕ → ℚ) (cfg : Config) (scenario_name : String) :
    Except String (List Agent) :=
  match findScenario cfg scenario_name with
  | none => .error ("Scenario '" ++ scenario_name ++ "' not found in config")
  | some sc => .ok ((List.range sc.population_size).map
      (fun i => generateSingleAgent oracle ageOracle i
        sc.generation_rules sc.global_context))

/-- The `voter_id` column of a generated population (empty on error). -/
def populationVoterIds (r : Except String (List Agent)) :
    List (Option JValue) :=
  match r with
  | .ok agents => agents.map (fun ag => lookupKey ag "voter_id")
  | .error _ => []

/-- A deterministic stand-in for the random feature draws. -/
def oracleZero : ℕ → String → FeatureGenMethod → ℚ := fun _ _ _ => 0

/-- A deterministic stand-in for the random age draw. -/
def ageThirty : ℕ → ℚ := fun _ => 30

/-- A configuration whose only scenario carries a `global_context` entry
named `voter_id`. -/
def clobberConfig : Config :=
  ⟨[{ scenario_name := "Clobber (2019)", population_size := 1,
      generation_rules := [], global_context := [("voter_id", .num 99)] }]⟩

/-- A well-formed configuration: two scenarios, no `voter_id` key in any
rule or context. -/
def goodConfig : Config :=
  ⟨[{ scenario_name := "Good (2019)", population_size := 2,
      generation_rules :=
        [("civic_duty", .beta_distribution 2 2),
         ("habit_strength", .binomial_draw_normalized 10 (1/2))],
      global_context := [("electoral_competitiveness", .num (7/10))] },
    { scenario_name := "Other (2019)", population_size := 3,
      generation_rules := [], global_context := [] }]⟩

theorem lookupKey_foldl_setKey {α : Type} (val : String × α → JValue)
    (l : List (String × α)) (acc : List (String × JValue)) (key : String)
    (h : ∀ kv ∈ l, kv.1 ≠ key) :
    lookupKey (l.foldl (fun a kv => setKey a kv.1 (val kv)) acc) key =
      lookupKey acc key := by
  induction l generalizing acc with
  | nil => rfl
  | cons kv rest ih =>
    simp only [List.foldl_cons]
    rw [ih _ (fun x hx => h x (List.mem_cons_of_mem _ hx)),
      lookupKey_setKey_ne _ _ _ _
        (Ne.symm (h kv (List.mem_cons_self _ _)))]

theorem lookupKey_foldl_condSetKey (l : List (String × JValue))
    (acc : List (String × JValue)) (key : String)
    (h : ∀ kv ∈ l, kv.1 ≠ key) :
    lookupKey (l.foldl
      (fun a kv =>
        if (lookupKey a kv.1).isNone then setKey a kv.1 kv.2 else a)
      acc) key = lookupKey acc key := by
  induction l generalizing acc with
  | nil => rfl
  | cons kv rest ih =>
    simp only [List.foldl_cons]
    rw [ih _ (fun x hx => h x (List.mem_cons_of_mem _ hx))]
    by_cases hc : (lookupKey acc kv.1).isNone
    · rw [if_pos hc,
        lookupKey_setKey_ne _ _ _ _
          (Ne.symm (h kv (List.mem_cons_self _ _)))]
    · rw [if_neg hc]

theorem lookupKey_addDefaultFeatures_voterId (age : ℚ) (agent : Agent) :
    lookupKey (addDefaultFeatures age agent) "voter_id" =
      lookupKey agent "voter_id" := by
  unfold addDefaultFeatures
  refine lookupKey_foldl_condSetKey _ _ _ ?_
  intro kv hkv
  simp only [List.mem_cons, List.not_mem_nil, or_false] at hkv
  rcases hkv with rfl | rfl | rfl | rfl | rfl
  · exact (by decide : ("age" : String) ≠ "voter_id")
  · exact (by decide : ("issue_salience" : String) ≠ "voter_id")
  · exact (by decide : ("partisan_identity_strength" : String) ≠ "voter_id")
  · exact (by decide : ("perceived_integrity" : String) ≠ "voter_id")
  · exact (by decide : ("personality_match_candidate" : String) ≠ "voter_id")

theorem generateSingleAgent_voterId
    (oracle : ℕ → String → FeatureGenMethod → ℚ) (ageOracle : ℕ → ℚ)
    (i : ℕ) (rules : List (String × FeatureGenMethod))
    (context : List (String × JValue))
    (hrules : ∀ kv ∈ rules, kv.1 ≠ "voter_id")
    (hctx : ∀ kv ∈ context, kv.1 ≠ "voter_id") :
    lookupKey (generateSingleAgent oracle ageOracle i rules context)
      "voter_id" = some (.str ("agent_" ++ toString i)) := by
  unfold generateSingleAgent
  rw [lookupKey_addDefaultFeatures_voterId,
    lookupKey_foldl_setKey _ _ _ _ hctx,
    lookupKey_foldl_setKey _ _ _ _ hrules]
  rfl

end Agents

/-- **C8 counterexample**: `agent.update(context)` runs after the
`voter_id` is written, so a configuration whose scenario carries a
`global_context` entry named `voter_id` produces a population whose
`voter_id` is the context constant 99, not the string `agent_0` —
contradicting the claim for every configuration. -/
theorem C8_context_clobbers_voter_id :
    Agents.populationVoterIds
      (Agents.generatePopulation Agents.oracleZero Agents.ageThirty
        Agents.clobberConfig "Clobber (2019)") = [some (.num 99)] ∧
    some (Cfg.JValue.num 99) ≠ some (.str "agent_0") :=
  ⟨rfl, fun h => by injection h with h'; cases h'⟩

/-- **C8 (amended)**: for every configuration containing a scenario
named `S` whose generation rules include `population_size = N` and in
which no generation-rule or global-context key is named `voter_id`,
`generate_population(S)` returns exactly `N` feature records whose
`voter_id` values are the strings `agent_0 .. agent_{N−1}` in that
order (a `global_context` or rule entry named `voter_id` would
overwrite them); for every name matching no scenario it fails with a
not-found error naming the scenario. -/
theorem C8_generate_population_amended :
    (∀ (oracle : ℕ → String → Agents.FeatureGenMethod → ℚ)
       (ageOracle : ℕ → ℚ) (cfg : Agents.Config) (name : String)
       (sc : Agents.Scenario),
      Agents.findScenario cfg name = some sc →
      (∀ kv ∈ sc.generation_rules, kv.1 ≠ "voter_id") →
      (∀ kv ∈ sc.global_context, kv.1 ≠ "voter_id") →
      ∃ agents,
        Agents.generatePopulation oracle ageOracle cfg name = .ok agents ∧
        agents.length = sc.population_size ∧
        ∀ i : ℕ, ∀ h : i < agents.length,
          Cfg.lookupKey (agents.get ⟨i, h⟩) "voter_id" =
            some (.str ("agent_" ++ toString i))) ∧
    (∀ (oracle : ℕ → String → Agents.FeatureGenMethod → ℚ)
       (ageOracle : ℕ → ℚ) (cfg : Agents.Config) (name : String),
      Agents.findScenario cfg name = none →
      Agents.generatePopulation oracle ageOracle cfg name =
        .error ("Scenario '" ++ name ++ "' not found in config")) := by
  constructor
  · intro oracle ageOracle cfg name sc hfind hrules hctx
    refine ⟨(List.range sc.population_size).map
      (fun i => Agents.generateSingleAgent oracle ageOracle i
        sc.generation_rules sc.global_context), ?_, ?_, ?_⟩
    · unfold Agents.generatePopulation
      rw [hfind]
    · simp
    · intro i h
      have hi : i < sc.population_size := by
        simpa using h
      simp only [List.get_eq_getElem, List.getElem_map, List.getElem_range]
      exact Agents.generateSingleAgent_voterId oracle ageOracle i
        sc.generation_rules sc.global_context hrules hctx
  · intro oracle ageOracle cfg name hfind
    unfold Agents.generatePopulation
    rw [hfind]

/-- Witness for the amended C8: on `goodConfig`, the scenario
`"Good (2019)"` yields a population of 2 with voter ids `agent_0`,
`agent_1`, and a missing scenario name yields the not-found error. -/
theorem C8_generate_population_amended_witness :
    (∃ agents,
      Agents.generatePopulation Agents.oracleZero Agents.ageThirty
        Agents.goodConfig "Good (2019)" = .ok agents ∧
      agents.length =
        ((Agents.goodConfig.simulation_scenarios.get
          ⟨0, by simp [Agents.goodConfig]⟩).population_size) ∧
      ∀ i : ℕ, ∀ h : i < agents.length,
        Cfg.lookupKey (agents.get ⟨i, h⟩) "voter_id" =
          some (.str ("agent_" ++ toString i))) ∧
    Agents.generatePopulation Agents.oracleZero Agents.ageThirty
      Agents.goodConfig "Missing (2019)" =
      .error "Scenario 'Missing (2019)' not found in config" := by
  constructor
  · exact C8_generate_population_amended.1 Agents.oracleZero
      Agents.ageThirty Agents.goodConfig "Good (2019)"
      { scenario_name := "Good (2019)", population_size := 2,
        generation_rules :=
          [("civic_duty", .beta_distribution 2 2),
           ("habit_strength", .binomial_draw_normalized 10 (1/2))],
        global_context := [("electoral_competitiveness", .num (7/10))] }
      rfl
      (by intro kv hkv
          simp only [List.mem_cons, List.not_mem_nil, or_false] at hkv
          rcases hkv with rfl | rfl <;> decide)
      (by intro kv hkv
          simp only [List.mem_cons, List.not_mem_nil, or_false] at hkv
          rcases hkv with rfl
          decide)
  · exact C8_generate_population_amended.2 Agents.oracleZero
      Agents.ageThirty Agents.goodConfig "Missing (2019)" rfl
